import Mathlib

/-!
Shallow embedding of the `stars_fetcher` GitHub CLI client
(src/api/repos.rs, src/api/stars.rs, src/api/client.rs, src/config/config.rs).

HTTP transport is modelled by passing each endpoint operation the outcome of
its single `send()` call: `Except.error e` for a transport-level failure
(propagated by `?` in the source) and `Except.ok r` for a received response.
A received response carries its status code, the JSON parse of its payload
(consumed by the source's `.json::<T>()` calls) and its raw payload text
(consumed by the source's `.text()` calls).  Serde-derived deserialization is
modelled field by field: required fields error when missing or of the wrong
type, `u64` fields are `Nat` with an explicit `< 2 ^ 64` bound, and the
upstream field `"stargazers_count"` is read into the renamed `stars` field
exactly as the `#[serde(rename = "stargazers_count")]` attribute does.
Filesystem and process effects of `download_repo` are modelled by explicit
result parameters plus a trace of the filesystem mutations attempted.
-/

namespace StarsFetcher

/-- JSON values as seen after wire-level parsing (numbers restricted to
the non-negative integers the source's `u64` fields consume). -/
inductive Json where
  | null : Json
  | bool (b : Bool) : Json
  | num (n : Nat) : Json
  | str (s : String) : Json
  | arr (elems : List Json) : Json
  | obj (fields : List (String × Json)) : Json

/-- Look up a field of a JSON object (first occurrence wins);
`none` on non-objects and missing keys. -/
def Json.getField : Json → String → Option Json
  | .obj fields, key => fields.lookup key
  | _, _ => none

/-- `OwnerResponse` from src/api/repos.rs: `{ login: String }`. -/
structure OwnerResponse where
  login : String
deriving DecidableEq

/-- `RepoResponse` from src/api/repos.rs: id, name, nested owner, and
`stars` deserialized from the upstream `"stargazers_count"` field. -/
structure RepoResponse where
  id : Nat
  name : String
  owner : OwnerResponse
  stars : Nat
deriving DecidableEq

/-- `RepoDetailsResponse` from src/api/repos.rs: `RepoResponse` fields plus
optional description and `html_url`. -/
structure RepoDetailsResponse where
  id : Nat
  name : String
  owner : OwnerResponse
  stars : Nat
  description : Option String
  html_url : String
deriving DecidableEq

/-- Serde deserialization of a `u64` field: a JSON number within the
`u64` range; anything else is an error. -/
def deserializeU64 : Json → Except String Nat
  | .num n => if n < 2 ^ 64 then .ok n else .error "integer out of range for u64"
  | _ => .error "invalid type: expected u64"

/-- Serde deserialization of a `String` field. -/
def deserializeString : Json → Except String String
  | .str s => .ok s
  | _ => .error "invalid type: expected string"

/-- Serde deserialization of an `Option<String>` field value
(`null` becomes `None`). -/
def deserializeOptString : Json → Except String (Option String)
  | .null => .ok none
  | .str s => .ok (some s)
  | _ => .error "invalid type: expected string or null"

/-- A required struct field: serde errors when the key is absent
(no `#[serde(default)]` is present in the source). -/
def reqField (j : Json) (key : String) : Except String Json :=
  match j.getField key with
  | some v => .ok v
  | none => .error ("missing field " ++ key)

/-- An `Option`-typed struct field: serde treats an absent key as `null`. -/
def optField (j : Json) (key : String) : Json :=
  (j.getField key).getD .null

/-- Whether an `Except` value is a success. -/
def isOk : Except String α → Bool
  | .ok _ => true
  | .error _ => false

/-- Serde-derived `Deserialize` for `OwnerResponse`: the owner must be an
object carrying a `"login"` string. -/
def deserializeOwnerResponse (j : Json) : Except String OwnerResponse :=
  match reqField j "login" with
  | .error e => .error e
  | .ok v =>
    match deserializeString v with
    | .error e => .error e
    | .ok login => .ok { login }

/-- A required `u64` struct field: fetch the key, then deserialize. -/
def fieldU64 (j : Json) (key : String) : Except String Nat :=
  match reqField j key with
  | .error e => .error e
  | .ok v => deserializeU64 v

/-- A required `String` struct field: fetch the key, then deserialize. -/
def fieldString (j : Json) (key : String) : Except String String :=
  match reqField j key with
  | .error e => .error e
  | .ok v => deserializeString v

/-- A required nested-owner struct field: fetch the key, then deserialize. -/
def fieldOwner (j : Json) (key : String) : Except String OwnerResponse :=
  match reqField j key with
  | .error e => .error e
  | .ok v => deserializeOwnerResponse v

/-- An `Option<String>` struct field (absent key treated as `null`). -/
def fieldOptString (j : Json) (key : String) : Except String (Option String) :=
  deserializeOptString (optField j key)

/-- Serde-derived `Deserialize` for `RepoResponse`; `stars` is read from the
`"stargazers_count"` key per the `#[serde(rename)]` attribute. -/
def deserializeRepoResponse (j : Json) : Except String RepoResponse :=
  match fieldU64 j "id" with
  | .error e => .error e
  | .ok id =>
    match fieldString j "name" with
    | .error e => .error e
    | .ok name =>
      match fieldOwner j "owner" with
      | .error e => .error e
      | .ok owner =>
        match fieldU64 j "stargazers_count" with
        | .error e => .error e
        | .ok stars => .ok { id, name, owner, stars }

/-- Serde-derived `Deserialize` for `RepoDetailsResponse`. -/
def deserializeRepoDetailsResponse (j : Json) : Except String RepoDetailsResponse :=
  match fieldU64 j "id" with
  | .error e => .error e
  | .ok id =>
    match fieldString j "name" with
    | .error e => .error e
    | .ok name =>
      match fieldOwner j "owner" with
      | .error e => .error e
      | .ok owner =>
        match fieldU64 j "stargazers_count" with
        | .error e => .error e
        | .ok stars =>
          match fieldOptString j "description" with
          | .error e => .error e
          | .ok description =>
            match fieldString j "html_url" with
            | .error e => .error e
            | .ok html_url => .ok { id, name, owner, stars, description, html_url }

/-- An HTTP response as the endpoint operations observe it: the status code,
the JSON view of the payload (what `.json::<T>()` parses) and the raw text
view (what `.text()` returns; `unwrap_or_default` makes it total). -/
structure HttpResponse where
  status : Nat
  body : Json
  text : String

/-- The outcome of one `send()` call: transport failure or a response. -/
abbrev SendResult := Except String HttpResponse

/-- `get_repo` from src/api/repos.rs, given the outcome of its HTTP GET:
transport errors propagate via `?`; status 200 deserializes the body as a
`RepoResponse`; any other status is the fixed fetch error. -/
def get_repo (resp : SendResult) : Except String RepoResponse :=
  match resp with
  | .error e => .error e
  | .ok r =>
    if r.status = 200 then deserializeRepoResponse r.body
    else .error "Failed to fetch repository"

/-- `get_repo_details` from src/api/repos.rs, given the outcome of its GET. -/
def get_repo_details (resp : SendResult) : Except String RepoDetailsResponse :=
  match resp with
  | .error e => .error e
  | .ok r =>
    if r.status = 200 then deserializeRepoDetailsResponse r.body
    else .error "Failed to fetch repository details"

/-- `star_repo` from src/api/stars.rs, given the outcome of its PUT:
204 (`NO_CONTENT`) and 200 (`OK`) succeed, anything else fails with a
message carrying the response body text. -/
def star_repo (resp : SendResult) : Except String Unit :=
  match resp with
  | .error e => .error e
  | .ok r =>
    if r.status = 204 then .ok ()
    else if r.status = 200 then .ok ()
    else .error ("Failed to star repository: " ++ r.text)

/-- `unstar_repo` from src/api/stars.rs, given the outcome of its DELETE. -/
def unstar_repo (resp : SendResult) : Except String Unit :=
  match resp with
  | .error e => .error e
  | .ok r =>
    if r.status = 204 then .ok ()
    else if r.status = 200 then .ok ()
    else .error ("Failed to unstar repository: " ++ r.text)

/-- `is_starred` from src/api/stars.rs, given the outcome of its GET:
204 means starred, 404 means not starred, anything else fails with a
message carrying the response body text. -/
def is_starred (resp : SendResult) : Except String Bool :=
  match resp with
  | .error e => .error e
  | .ok r =>
    if r.status = 204 then .ok true
    else if r.status = 404 then .ok false
    else .error ("Failed to check starred status: " ++ r.text)

/-- `validate_auth` from src/api/client.rs, given the outcome of its GET on
the current-user endpoint: transport errors propagate via `?`; otherwise
`is_success()` (any 2xx status) decides the boolean. -/
def validate_auth (resp : SendResult) : Except String Bool :=
  match resp with
  | .error e => .error e
  | .ok r => .ok (decide (200 ≤ r.status ∧ r.status < 300))

/-- `GithubConfig` from src/config/config.rs. -/
structure GithubConfig where
  token : String
  email : String
  api_url : String
deriving DecidableEq

/-- `Config` from src/config/config.rs. -/
structure Config where
  github : GithubConfig
deriving DecidableEq

/-- The default API base URL written into a freshly created config. -/
def defaultApiUrl : String := "https://api.github.com"

/-- `Config::create_default_config` from src/config/config.rs.
`envToken` is `env::var("GITHUB_TOKEN")` (`unwrap_or_default` turns absence
into the empty string); `configDir` is `dirs::config_dir()`; `mkdirResult`
and `writeResult` are the outcomes `fs::create_dir_all` and `fs::write`
would report (each propagated by `?`).  `toml::to_string` on this
string-only struct cannot fail and is elided.  When `configDir` is `none`
the persisting block is skipped entirely and the default is returned. -/
def create_default_config (envToken : Option String) (configDir : Option String)
    (mkdirResult : Except String Unit) (writeResult : Except String Unit) :
    Except String Config :=
  let config : Config :=
    { github := { token := envToken.getD "", email := "", api_url := defaultApiUrl } }
  match configDir with
  | some _ =>
    match mkdirResult with
    | .error e => .error e
    | .ok _ =>
      match writeResult with
      | .error e => .error e
      | .ok _ => .ok config
  | none => .ok config

/-- `Config::new` from src/config/config.rs. `loadResult` is the outcome of
`Self::load_from_file()`; on success an empty token is overlaid from
`GITHUB_TOKEN` when that variable is set; on any load failure the default
config is created (and persisted). -/
def Config.new (loadResult : Except String Config) (envToken : Option String)
    (configDir : Option String) (mkdirResult writeResult : Except String Unit) :
    Except String Config :=
  match loadResult with
  | .ok config =>
    if config.github.token.isEmpty then
      match envToken with
      | some t => .ok { github := { config.github with token := t } }
      | none => .ok config
    else .ok config
  | .error _ => create_default_config envToken configDir mkdirResult writeResult

/-- `GitHubClient` from src/api/client.rs, minus the reqwest transport
handle (which carries no observable state beyond its fixed timeout and
user-agent). -/
structure GitHubClient where
  api_url : String
  token : String
deriving DecidableEq

/-- `GitHubClient::from_config` from src/api/client.rs: rejects an empty
API URL or an empty token, otherwise constructs the client. -/
def from_config (config : Config) : Except String GitHubClient :=
  if config.github.api_url.isEmpty then .error "API URL is empty"
  else if config.github.token.isEmpty then .error "GitHub API token is empty"
  else .ok { api_url := config.github.api_url, token := config.github.token }

/-- `GitHubClient::new_validated` from src/api/client.rs: builds the client
from the config, then runs `validate_auth` (its transport error propagating
via `?`); an accepted token yields the client, a rejected one the fixed
invalid-token error. -/
def new_validated (config : Config) (authResp : SendResult) :
    Except String GitHubClient :=
  match from_config config with
  | .error e => .error e
  | .ok client =>
    match validate_auth authResp with
    | .error e => .error e
    | .ok b => if b then .ok client else .error "Invalid GitHub API token"

/-- A filesystem mutation attempted by `download_repo`. -/
inductive FsAction where
  | removeDirAll (p : String) : FsAction
  | createDirAll (p : String) : FsAction
deriving DecidableEq

/-- The observed outcome of the spawned `git clone` process. -/
structure CloneOutput where
  success : Bool
  stderr : String

/-- `download_repo` from src/api/repos.rs, returning its result together
with the trace of filesystem mutations attempted, in order.  `cwd` is
`std::env::current_dir()` (used only when no path is given); `gitAvailable`
is whether `git --version` runs; `destExists` is `download_path.exists()`;
`parent`/`parentExists` model `download_path.parent()` and its existence;
`removeResult`/`createResult` are the outcomes `fs::remove_dir_all` and
`fs::create_dir_all` would report; `cloneResult` is the spawned clone
command's outcome (`error` when spawning itself fails). -/
def download_repo (owner repo : String) (path : Option String) (cwd : String)
    (gitAvailable : Bool) (destExists : Bool)
    (parent : Option String) (parentExists : Bool)
    (removeResult createResult : Except String Unit)
    (cloneResult : Except String CloneOutput) :
    Except String String × List FsAction :=
  let download_path := path.getD (cwd ++ "/" ++ owner ++ "-" ++ repo)
  let download_location := download_path
  if gitAvailable = false then
    (.error "Git is not installed or not available in PATH", [])
  else
    let step1 : Except String Unit × List FsAction :=
      if destExists then (removeResult, [.removeDirAll download_path])
      else (.ok (), [])
    match step1.1 with
    | .error e => (.error e, step1.2)
    | .ok _ =>
      let step2 : Except String Unit × List FsAction :=
        match parent with
        | some par =>
          if parentExists = false then (createResult, [.createDirAll par])
          else (.ok (), [])
        | none => (.ok (), [])
      match step2.1 with
      | .error e => (.error e, step1.2 ++ step2.2)
      | .ok _ =>
        match cloneResult with
        | .error e => (.error e, step1.2 ++ step2.2)
        | .ok out =>
          if out.success = false then
            (.error ("Failed to clone repository: " ++ out.stderr),
              step1.2 ++ step2.2)
          else (.ok download_location, step1.2 ++ step2.2)

/-! ### Helper lemmas: inversion of the serde field deserializers -/

theorem reqField_ok {j : Json} {key : String} {v : Json} :
    reqField j key = .ok v ↔ j.getField key = some v := by
  unfold reqField
  cases h : j.getField key <;> simp

theorem deserializeU64_ok {v : Json} {n : Nat} :
    deserializeU64 v = .ok n ↔ v = .num n ∧ n < 2 ^ 64 := by
  cases v <;> simp [deserializeU64]
  split_ifs with h <;> simp <;> omega

theorem deserializeString_ok {v : Json} {s : String} :
    deserializeString v = .ok s ↔ v = .str s := by
  cases v <;> simp [deserializeString]

theorem deserializeOwnerResponse_ok {j : Json} {o : OwnerResponse} :
    deserializeOwnerResponse j = .ok o ↔
      j.getField "login" = some (.str o.login) := by
  obtain ⟨l⟩ := o
  unfold deserializeOwnerResponse
  cases h : reqField j "login" with
  | error e =>
    unfold reqField at h
    cases hg : j.getField "login" with
    | none => simp [hg]
    | some v => rw [hg] at h; simp at h
  | ok v =>
    have h' := reqField_ok.mp h
    cases v <;> simp_all [deserializeString]

theorem fieldU64_ok {j : Json} {key : String} {n : Nat} :
    fieldU64 j key = .ok n ↔ j.getField key = some (.num n) ∧ n < 2 ^ 64 := by
  unfold fieldU64
  cases h : reqField j key with
  | error e =>
    unfold reqField at h
    cases hg : j.getField key with
    | none => simp [hg]
    | some v => rw [hg] at h; simp at h
  | ok v =>
    have h' := reqField_ok.mp h
    simp [deserializeU64_ok, h']

theorem fieldString_ok {j : Json} {key : String} {s : String} :
    fieldString j key = .ok s ↔ j.getField key = some (.str s) := by
  unfold fieldString
  cases h : reqField j key with
  | error e =>
    unfold reqField at h
    cases hg : j.getField key with
    | none => simp [hg]
    | some v => rw [hg] at h; simp at h
  | ok v =>
    have h' := reqField_ok.mp h
    simp [deserializeString_ok, h']

theorem fieldOwner_ok {j : Json} {key : String} {o : OwnerResponse} :
    fieldOwner j key = .ok o ↔
      ∃ ow, j.getField key = some ow ∧
        ow.getField "login" = some (.str o.login) := by
  unfold fieldOwner
  cases h : reqField j key with
  | error e =>
    unfold reqField at h
    cases hg : j.getField key with
    | none => simp [hg]
    | some v => rw [hg] at h; simp at h
  | ok v =>
    have h' := reqField_ok.mp h
    simp [deserializeOwnerResponse_ok, h']

/-- Full inversion for `RepoResponse` deserialization: success happens
exactly on the documented shape, with every field (including `stars`, read
from the upstream `"stargazers_count"` key) taken from the source JSON. -/
theorem deserializeRepoResponse_ok {j : Json} {r : RepoResponse} :
    deserializeRepoResponse j = .ok r ↔
      j.getField "id" = some (.num r.id) ∧ r.id < 2 ^ 64 ∧
      j.getField "name" = some (.str r.name) ∧
      (∃ ow, j.getField "owner" = some ow ∧
        ow.getField "login" = some (.str r.owner.login)) ∧
      j.getField "stargazers_count" = some (.num r.stars) ∧ r.stars < 2 ^ 64 := by
  obtain ⟨i, n, ⟨l⟩, s⟩ := r
  unfold deserializeRepoResponse
  constructor
  · intro h
    cases h1 : fieldU64 j "id" with
    | error e => rw [h1] at h; simp at h
    | ok id =>
      rw [h1] at h
      cases h2 : fieldString j "name" with
      | error e => rw [h2] at h; simp at h
      | ok name =>
        rw [h2] at h
        cases h3 : fieldOwner j "owner" with
        | error e => rw [h3] at h; simp at h
        | ok owner =>
          rw [h3] at h
          cases h4 : fieldU64 j "stargazers_count" with
          | error e => rw [h4] at h; simp at h
          | ok stars =>
            rw [h4] at h
            simp only [Except.ok.injEq, RepoResponse.mk.injEq] at h
            obtain ⟨hid, hname, howner, hstars⟩ := h
            subst hid; subst hname; subst howner; subst hstars
            exact ⟨(fieldU64_ok.mp h1).1, (fieldU64_ok.mp h1).2,
              fieldString_ok.mp h2, fieldOwner_ok.mp h3,
              (fieldU64_ok.mp h4).1, (fieldU64_ok.mp h4).2⟩
  · rintro ⟨h1, hi, h2, ⟨ow, h3, h4⟩, h5, hs⟩
    rw [fieldU64_ok.mpr ⟨h1, hi⟩, fieldString_ok.mpr h2,
      fieldOwner_ok.mpr ⟨ow, h3, h4⟩, fieldU64_ok.mpr ⟨h5, hs⟩]

theorem fieldOwner_str {j : Json} {key s : String}
    (h : j.getField key = some (.str s)) :
    fieldOwner j key = .error ("missing field " ++ "login") := by
  unfold fieldOwner
  rw [reqField_ok.mpr h]
  rfl

theorem deserializeRepoResponse_owner_str {j : Json} {s : String}
    (h : j.getField "owner" = some (.str s)) :
    isOk (deserializeRepoResponse j) = false := by
  have ho := fieldOwner_str h
  unfold deserializeRepoResponse
  cases h1 : fieldU64 j "id" with
  | error e => rfl
  | ok id =>
    cases h2 : fieldString j "name" with
    | error e => rfl
    | ok name => rw [ho]; rfl

theorem deserializeRepoDetailsResponse_owner_str {j : Json} {s : String}
    (h : j.getField "owner" = some (.str s)) :
    isOk (deserializeRepoDetailsResponse j) = false := by
  have ho := fieldOwner_str h
  unfold deserializeRepoDetailsResponse
  cases h1 : fieldU64 j "id" with
  | error e => rfl
  | ok id =>
    cases h2 : fieldString j "name" with
    | error e => rfl
    | ok name => rw [ho]; rfl

/-! ### Claim theorems -/

/-- C1: for every 200 response whose body is a valid single-repository JSON
object of the documented shape, `get_repo` returns a record whose id, name,
owner login and star count (read from the JSON field `"stargazers_count"`)
equal the corresponding source JSON fields; for every response with any
other status it returns the fixed fetch error, never a default or empty
record. -/
theorem c1_get_repo_contract (j ow : Json) (i s : Nat) (n l t : String)
    (hid : j.getField "id" = some (.num i)) (hi : i < 2 ^ 64)
    (hname : j.getField "name" = some (.str n))
    (how : j.getField "owner" = some ow)
    (hlogin : ow.getField "login" = some (.str l))
    (hstars : j.getField "stargazers_count" = some (.num s)) (hs : s < 2 ^ 64) :
    get_repo (.ok { status := 200, body := j, text := t }) =
      .ok { id := i, name := n, owner := { login := l }, stars := s } ∧
    (∀ r : HttpResponse, r.status ≠ 200 →
      get_repo (.ok r) = .error "Failed to fetch repository") := by
  constructor
  · show deserializeRepoResponse j = _
    exact deserializeRepoResponse_ok.mpr ⟨hid, hi, hname, ⟨ow, how, hlogin⟩, hstars, hs⟩
  · intro r hr
    unfold get_repo
    simp [hr]

/-- Witness for C1 at the repository's own test vector. -/
theorem c1_get_repo_contract_witness :
    get_repo (.ok ⟨200,
        .obj [("id", .num 1296269), ("name", .str "hello-world"),
          ("owner", .obj [("login", .str "octocat")]),
          ("stargazers_count", .num 80)],
        ""⟩) =
      .ok ⟨1296269, "hello-world", ⟨"octocat"⟩, 80⟩ :=
  (c1_get_repo_contract
    (.obj [("id", .num 1296269), ("name", .str "hello-world"),
      ("owner", .obj [("login", .str "octocat")]),
      ("stargazers_count", .num 80)])
    (.obj [("login", .str "octocat")]) 1296269 80 "hello-world" "octocat" ""
    rfl (by norm_num) rfl rfl rfl rfl (by norm_num)).1

/-- C2: `is_starred` returns `true` exactly when the status is 204,
`false` exactly when the status is 404, and an error (carrying the body
text) for every other status. -/
theorem c2_is_starred_contract (r : HttpResponse) :
    (is_starred (.ok r) = .ok true ↔ r.status = 204) ∧
    (is_starred (.ok r) = .ok false ↔ r.status = 404) ∧
    (r.status ≠ 204 → r.status ≠ 404 →
      is_starred (.ok r) = .error ("Failed to check starred status: " ++ r.text)) := by
  unfold is_starred
  by_cases h1 : r.status = 204
  · simp [h1]
  · by_cases h2 : r.status = 404 <;> simp [h1, h2]

/-- Witness for C2 at a 401 response. -/
theorem c2_is_starred_contract_witness :
    is_starred (.ok { status := 401, body := .null, text := "Bad credentials" }) =
      .error ("Failed to check starred status: " ++ "Bad credentials") :=
  (c2_is_starred_contract
    { status := 401, body := .null, text := "Bad credentials" }).2.2
    (by decide) (by decide)

/-- C4: repository-response deserialization succeeds exactly on the
documented shape — fields are never silently defaulted — with the domain
`stars` field read from the upstream `"stargazers_count"` key; a body whose
owner is a bare string (not a nested object with a `"login"` field) makes
both the summary and the details deserializers fail. -/
theorem c4_deserialization_shape (j : Json) (r : RepoResponse) (s : String) :
    (deserializeRepoResponse j = .ok r ↔
      j.getField "id" = some (.num r.id) ∧ r.id < 2 ^ 64 ∧
      j.getField "name" = some (.str r.name) ∧
      (∃ ow, j.getField "owner" = some ow ∧
        ow.getField "login" = some (.str r.owner.login)) ∧
      j.getField "stargazers_count" = some (.num r.stars) ∧ r.stars < 2 ^ 64) ∧
    (j.getField "owner" = some (.str s) →
      isOk (deserializeRepoResponse j) = false ∧
      isOk (deserializeRepoDetailsResponse j) = false) :=
  ⟨deserializeRepoResponse_ok, fun h =>
    ⟨deserializeRepoResponse_owner_str h, deserializeRepoDetailsResponse_owner_str h⟩⟩

/-- Witness for C4: a body whose owner is the bare string `"octocat"` is
rejected by both deserializers. -/
theorem c4_deserialization_shape_witness :
    isOk (deserializeRepoResponse
        (.obj [("id", .num 1), ("owner", .str "octocat")])) = false ∧
    isOk (deserializeRepoDetailsResponse
        (.obj [("id", .num 1), ("owner", .str "octocat")])) = false :=
  (c4_deserialization_shape (.obj [("id", .num 1), ("owner", .str "octocat")])
    { id := 0, name := "", owner := { login := "" }, stars := 0 } "octocat").2 rfl

/-- C5: `star_repo` and `unstar_repo` succeed with no value exactly when
the status is 204 or 200, and for every other status they fail with a
message carrying the response body text. -/
theorem c5_star_unstar_contract (r : HttpResponse) :
    (star_repo (.ok r) = .ok () ↔ (r.status = 204 ∨ r.status = 200)) ∧
    (unstar_repo (.ok r) = .ok () ↔ (r.status = 204 ∨ r.status = 200)) ∧
    (r.status ≠ 204 → r.status ≠ 200 →
      star_repo (.ok r) = .error ("Failed to star repository: " ++ r.text) ∧
      unstar_repo (.ok r) = .error ("Failed to unstar repository: " ++ r.text)) := by
  unfold star_repo unstar_repo
  by_cases h1 : r.status = 204
  · simp [h1]
  · by_cases h2 : r.status = 200 <;> simp [h1, h2]

/-- Witness for C5 at a 403 response. -/
theorem c5_star_unstar_contract_witness :
    star_repo (.ok { status := 403, body := .null, text := "forbidden" }) =
      .error ("Failed to star repository: " ++ "forbidden") ∧
    unstar_repo (.ok { status := 403, body := .null, text := "forbidden" }) =
      .error ("Failed to unstar repository: " ++ "forbidden") :=
  (c5_star_unstar_contract
    { status := 403, body := .null, text := "forbidden" }).2.2
    (by decide) (by decide)

/-- C3: configuration resolution precedence — a successfully loaded file
with a non-empty token is returned unchanged (file wins); a loaded file
with an empty token gets the token overlaid from `GITHUB_TOKEN` when that
variable is set (environment wins over empty-file value); when no file
loads, a default is synthesized with the token taken from `GITHUB_TOKEN`
(or empty) and the default API base URL. -/
theorem c3_config_resolution_precedence
    (cfg : Config) (envToken : Option String) (configDir : Option String)
    (mkdirResult writeResult : Except String Unit) (t e : String) :
    (cfg.github.token.isEmpty = false →
      Config.new (.ok cfg) envToken configDir mkdirResult writeResult = .ok cfg) ∧
    (cfg.github.token.isEmpty = true →
      Config.new (.ok cfg) (some t) configDir mkdirResult writeResult =
        .ok { github := { cfg.github with token := t } }) ∧
    (Config.new (.error e) envToken configDir (.ok ()) (.ok ()) =
      .ok { github := { token := envToken.getD "", email := "",
                        api_url := defaultApiUrl } }) := by
  refine ⟨fun h => ?_, fun h => ?_, ?_⟩
  · unfold Config.new
    simp [h]
  · unfold Config.new
    simp [h]
  · unfold Config.new create_default_config
    cases configDir <;> rfl

/-- Witness for C3: the three documented scenarios at concrete values. -/
theorem c3_config_resolution_precedence_witness :
    Config.new (.ok ⟨⟨"filetok", "e@x", "https://x"⟩⟩) (some "envtok") none
      (.ok ()) (.ok ()) = .ok ⟨⟨"filetok", "e@x", "https://x"⟩⟩ ∧
    Config.new (.ok ⟨⟨"", "e@x", "https://x"⟩⟩) (some "envtok") none
      (.ok ()) (.ok ()) = .ok ⟨⟨"envtok", "e@x", "https://x"⟩⟩ ∧
    Config.new (.error "Config file not found") (some "abc") (some "/home/u/.config")
      (.ok ()) (.ok ()) = .ok ⟨⟨"abc", "", defaultApiUrl⟩⟩ :=
  ⟨(c3_config_resolution_precedence ⟨⟨"filetok", "e@x", "https://x"⟩⟩ (some "envtok")
      none (.ok ()) (.ok ()) "envtok" "").1 rfl,
   (c3_config_resolution_precedence ⟨⟨"", "e@x", "https://x"⟩⟩ (some "envtok")
      none (.ok ()) (.ok ()) "envtok" "").2.1 rfl,
   (c3_config_resolution_precedence ⟨⟨"", "", ""⟩⟩ (some "abc") (some "/home/u/.config")
      (.ok ()) (.ok ()) "" "Config file not found").2.2⟩

/-- C6 counterexample: a transport failure in `validate_auth` is not
interpreted as an invalid token — it propagates as its own distinct error
(the `?` on `send()`), never as the `ok false` result the claim asserts. -/
theorem c6_transport_error_counterexample :
    validate_auth (.error "connection refused") = .error "connection refused" ∧
    validate_auth (.error "connection refused") ≠ .ok false :=
  ⟨rfl, by simp [validate_auth]⟩

/-- C6 amended: one authenticated call to the current-user endpoint, with
every 2xx status interpreted as valid and every other status as invalid;
a transport failure, however, is surfaced as a distinct error (propagated
unchanged through `validate_auth` and `new_validated`), not treated as a
rejected token. -/
theorem c6_validate_auth_contract (r : HttpResponse) :
    (validate_auth (.ok r) = .ok true ↔ 200 ≤ r.status ∧ r.status < 300) ∧
    (validate_auth (.ok r) = .ok false ↔ (r.status < 200 ∨ 300 ≤ r.status)) ∧
    (∀ e, validate_auth (.error e) = .error e) ∧
    (∀ cfg client e, from_config cfg = .ok client →
      new_validated cfg (.error e) = .error e) := by
  refine ⟨?_, ?_, fun e => rfl, fun cfg client e h => ?_⟩
  · simp [validate_auth]
  · simp [validate_auth]
    omega
  · unfold new_validated
    rw [h]
    rfl

/-- Witness for C6 amended: a transport failure during `new_validated`
surfaces verbatim, distinct from the invalid-token error. -/
theorem c6_validate_auth_contract_witness :
    new_validated ⟨⟨"tok", "", defaultApiUrl⟩⟩ (.error "connection refused") =
      .error "connection refused" :=
  (c6_validate_auth_contract ⟨200, .null, ""⟩).2.2.2
    ⟨⟨"tok", "", defaultApiUrl⟩⟩ ⟨defaultApiUrl, "tok"⟩ "connection refused" rfl

/-- C7 counterexample: when the platform provides no config directory,
`create_default_config` skips the persisting block entirely and returns
the synthesized default with `ok` — the unpersisted default is returned,
not a fatal configuration error (here even though any filesystem write
would have failed). -/
theorem c7_unpersisted_default_counterexample :
    create_default_config (some "abc") none (.error "permission denied")
      (.error "permission denied") =
      .ok ⟨⟨"abc", "", defaultApiUrl⟩⟩ := rfl

/-- C7 amended: when a platform config directory is available, any failure
of directory creation or of the file write while persisting the default is
fatal (the error is returned, not the unpersisted default); when no config
directory is available, the default is returned unpersisted without
error. -/
theorem c7_create_default_config_persist (envToken : Option String)
    (d e : String) (mkdirResult writeResult : Except String Unit) :
    (create_default_config envToken (some d) (.error e) writeResult = .error e) ∧
    (create_default_config envToken (some d) (.ok ()) (.error e) = .error e) ∧
    (create_default_config envToken (some d) (.ok ()) (.ok ()) =
      .ok ⟨⟨envToken.getD "", "", defaultApiUrl⟩⟩) ∧
    (create_default_config envToken none mkdirResult writeResult =
      .ok ⟨⟨envToken.getD "", "", defaultApiUrl⟩⟩) :=
  ⟨rfl, rfl, rfl, rfl⟩

/-- C8: whenever the external VCS binary (`git`) is unavailable,
`download_repo` returns the tooling error and its filesystem-mutation
trace is empty — no deletion of an existing destination and no directory
creation happens before the tool-availability check fails. -/
theorem c8_download_repo_git_missing (owner repo : String) (path : Option String)
    (cwd : String) (destExists : Bool) (parent : Option String)
    (parentExists : Bool) (removeResult createResult : Except String Unit)
    (cloneResult : Except String CloneOutput) :
    download_repo owner repo path cwd false destExists parent parentExists
      removeResult createResult cloneResult =
      (.error "Git is not installed or not available in PATH", []) := rfl

/-- C9: `download_repo` is not atomic on failure — when the destination
exists and the spawned clone then exits non-zero, the result is an error
whose message carries the captured stderr, the preexisting destination has
already been recursively deleted (it is in the mutation trace), and no
later action recreates it. -/
theorem c9_download_repo_not_atomic (owner repo : String) (path : Option String)
    (cwd : String) (parent : Option String) (parentExists : Bool)
    (out : CloneOutput) (hout : out.success = false)
    (hparent : parent ≠ some (path.getD (cwd ++ "/" ++ owner ++ "-" ++ repo))) :
    (download_repo owner repo path cwd true true parent parentExists
        (.ok ()) (.ok ()) (.ok out)).1 =
      .error ("Failed to clone repository: " ++ out.stderr) ∧
    FsAction.removeDirAll (path.getD (cwd ++ "/" ++ owner ++ "-" ++ repo)) ∈
      (download_repo owner repo path cwd true true parent parentExists
        (.ok ()) (.ok ()) (.ok out)).2 ∧
    FsAction.createDirAll (path.getD (cwd ++ "/" ++ owner ++ "-" ++ repo)) ∉
      (download_repo owner repo path cwd true true parent parentExists
        (.ok ()) (.ok ()) (.ok out)).2 := by
  cases parent with
  | none =>
    cases parentExists <;> simp [download_repo, hout]
  | some par =>
    have hpar : ¬ (path.getD (cwd ++ "/" ++ owner ++ "-" ++ repo)) = par := by
      intro he
      exact hparent (by rw [he])
    cases parentExists <;> simp [download_repo, hout, hpar]

/-- Witness for C9: a failed clone into an explicitly given, preexisting
destination. -/
theorem c9_download_repo_not_atomic_witness :
    (download_repo "octocat" "Hello-World" (some "/tmp/dest") "" true true
        (some "/tmp") false (.ok ()) (.ok ())
        (.ok ⟨false, "fatal: repository not found"⟩)).1 =
      .error ("Failed to clone repository: " ++ "fatal: repository not found") ∧
    FsAction.removeDirAll "/tmp/dest" ∈
      (download_repo "octocat" "Hello-World" (some "/tmp/dest") "" true true
        (some "/tmp") false (.ok ()) (.ok ())
        (.ok ⟨false, "fatal: repository not found"⟩)).2 ∧
    FsAction.createDirAll "/tmp/dest" ∉
      (download_repo "octocat" "Hello-World" (some "/tmp/dest") "" true true
        (some "/tmp") false (.ok ()) (.ok ())
        (.ok ⟨false, "fatal: repository not found"⟩)).2 :=
  c9_download_repo_not_atomic "octocat" "Hello-World" (some "/tmp/dest") ""
    (some "/tmp") false ⟨false, "fatal: repository not found"⟩ rfl (by decide)

/-- C10: configuration resolution never fails merely because the token is
missing — with no usable config file and `GITHUB_TOKEN` unset (and the
default persisting normally), `Config.new` succeeds with an empty token;
the empty-token error arises only later, at authenticated-client
construction in `from_config`. -/
theorem c10_missing_token_not_fatal (loadErr : String) (configDir : Option String) :
    Config.new (.error loadErr) none configDir (.ok ()) (.ok ()) =
      .ok ⟨⟨"", "", defaultApiUrl⟩⟩ ∧
    from_config ⟨⟨"", "", defaultApiUrl⟩⟩ =
      .error "GitHub API token is empty" := by
  constructor
  · unfold Config.new create_default_config
    cases configDir <;> rfl
  · rfl

end StarsFetcher
